import Mathlib

/-!
# Verification of the motion-control video backend's job registry

Shallow embedding of `src/server/index.js`: the in-memory job registry
(`jobs` Map), the `POST /api/generate` handler and the
`GET /api/status/:jobId` handler.  The external inference provider
(Replicate) is modelled as a function argument returning either a thrown
error message or a `Prediction`; one call to a handler performs at most one
provider call, so the provider argument is consulted exactly where the
source awaits it.
-/

namespace MotionControl

/-- JavaScript truthiness of an optional string value: `undefined`/absent and
the empty string are falsy, every other string is truthy. -/
def truthy : Option String → Bool
  | none => false
  | some s => !(s == "")

/-- JavaScript `x || d` for an optional string `x` against a default `d`. -/
def jsOr (x : Option String) (d : String) : String :=
  match x with
  | none => d
  | some s => if s == "" then d else s

/-- JavaScript `x || null` for an optional string value. -/
def jsOrNull (x : Option String) : Option String :=
  if truthy x then x else none

/-- A provider prediction object as consumed by the handlers:
`prediction.id`, `prediction.status`, `prediction.output`,
`prediction.error`.  `output` and `error` may be absent. -/
structure Prediction where
  id : String
  status : String
  output : Option String
  error : Option String
  deriving DecidableEq, Repr

/-- The value stored in the `jobs` Map (lines 97-104 and 133-137 of
`src/server/index.js`).  `videoUrl` is absent at creation and only written
by a poll when the provider reports a truthy output. -/
structure JobRecord where
  predictionId : String
  status : String
  characterImageUrl : String
  motionVideoUrl : String
  prompt : Option String
  createdAt : Nat
  videoUrl : Option String
  deriving DecidableEq, Repr

/-- The JSON body of `POST /api/generate`: each field may be absent. -/
structure GenerateRequest where
  characterImageUrl : Option String
  motionVideoUrl : Option String
  prompt : Option String
  deriving DecidableEq, Repr

/-- The model version string passed to `replicate.predictions.create`. -/
def modelVersion : String :=
  "lucataco/animate-diff:1531004ee4c98894ab11f62a7e6b40edd9ccc75c97974f1fd2f3a98ecc8c85f9"

/-- The fixed negative prompt of the submission. -/
def negativePrompt : String :=
  "badhandv4, easynegative, ng_deepnegative_v1_75t, verybadimagenegative_v1.3, bad-artist, bad_prompt_version2-neg, teeth"

/-- The default positive prompt used when the caller's prompt is falsy. -/
def defaultPrompt : String := "high quality, best quality"

/-- The argument of `replicate.predictions.create`: the model version and
the `input` object of lines 85-93.  The numeric guidance scale 7.5 is
represented exactly as a rational. -/
structure ProviderInput where
  version : String
  path : String
  seed : Nat
  steps : Nat
  prompt : String
  n_prompt : String
  motion_module : String
  guidance_scale : ℚ
  deriving DecidableEq, Repr

/-- All string-valued parameters of a provider submission (the fields a URL
could be forwarded through). -/
def ProviderInput.stringParams (i : ProviderInput) : List String :=
  [i.version, i.path, i.prompt, i.n_prompt, i.motion_module]

/-- The submission built by the generate handler (lines 83-94): `path` is
the motion video URL, the prompt falls back to the default when falsy, and
everything else is a fixed constant. -/
def buildProviderInput (motionVideoUrl : String) (prompt : Option String) : ProviderInput :=
  { version := modelVersion
    path := motionVideoUrl
    seed := 255224557
    steps := 25
    prompt := jsOr prompt defaultPrompt
    n_prompt := negativePrompt
    motion_module := "mm_sd_v14"
    guidance_scale := (15 : ℚ) / 2 }

/-- The `jobs` Map, as an association list from local job id to record. -/
abbrev Registry := List (String × JobRecord)

/-- `jobs.get(key)`. -/
def registryGet : Registry → String → Option JobRecord
  | [], _ => none
  | (k, v) :: rest, key => if k == key then some v else registryGet rest key

/-- `jobs.set(key, record)`: replaces the binding if the key is present,
otherwise appends a new one. -/
def registrySet : Registry → String → JobRecord → Registry
  | [], key, record => [(key, record)]
  | (k, v) :: rest, key, record =>
    if k == key then (key, record) :: rest
    else (k, v) :: registrySet rest key record

/-- Response of `POST /api/generate`: 400 on missing inputs, 500 on a
thrown provider error, otherwise the success body (its `success`/`message`
constants omitted). -/
inductive GenerateResponse where
  | badRequest (error : String)
  | serverError (error : String)
  | ok (jobId : String) (predictionId : String) (status : String)
  deriving DecidableEq, Repr

/-- Response of `GET /api/status/:jobId`. -/
inductive StatusResponse where
  | notFound (error : String)
  | serverError (error : String)
  | ok (jobId : String) (status : String) (videoUrl : Option String) (error : Option String)
  deriving DecidableEq, Repr

/-- The local job id carried by a generate response, when successful. -/
def GenerateResponse.jobIdOf : GenerateResponse → Option String
  | .ok jobId _ _ => some jobId
  | _ => none

/-- Outcome of one `POST /api/generate` call: the registry afterwards, the
HTTP response, and the submission sent to the provider (`none` when
validation failed before any provider call). -/
structure GenResult where
  jobs : Registry
  response : GenerateResponse
  submitted : Option ProviderInput
  deriving DecidableEq, Repr

/-- The `POST /api/generate` handler (lines 71-117).  `now` is the value of
`Date.now()` for this call; `submit` is the provider's behaviour on this
call's single `replicate.predictions.create` await (an `Except.error` is a
thrown exception caught on line 113). -/
def generate (jobs : Registry) (now : Nat) (req : GenerateRequest)
    (submit : ProviderInput → Except String Prediction) : GenResult :=
  if !truthy req.characterImageUrl || !truthy req.motionVideoUrl then
    ⟨jobs, .badRequest "Character image and motion video are required", none⟩
  else
    match submit (buildProviderInput (req.motionVideoUrl.getD "") req.prompt) with
    | .error message =>
      ⟨jobs, .serverError message,
        some (buildProviderInput (req.motionVideoUrl.getD "") req.prompt)⟩
    | .ok prediction =>
      ⟨registrySet jobs (toString now)
          ⟨prediction.id, "processing", req.characterImageUrl.getD "",
            req.motionVideoUrl.getD "", req.prompt, now, none⟩,
        .ok (toString now) prediction.id "processing",
        some (buildProviderInput (req.motionVideoUrl.getD "") req.prompt)⟩

/-- The `GET /api/status/:jobId` handler (lines 120-149).  `fetch` is the
provider's behaviour on this call's single `replicate.predictions.get`
await (an `Except.error` is a thrown exception caught on line 145). -/
def pollStatus (jobs : Registry) (jobId : String)
    (fetch : String → Except String Prediction) : Registry × StatusResponse :=
  match registryGet jobs jobId with
  | none => (jobs, .notFound "Job not found")
  | some job =>
    match fetch job.predictionId with
    | .error message => (jobs, .serverError message)
    | .ok prediction =>
      (registrySet jobs jobId
          { job with
            status := prediction.status
            videoUrl := if truthy prediction.output then prediction.output else job.videoUrl },
        .ok jobId prediction.status (jsOrNull prediction.output) (jsOrNull prediction.error))

/-- Terminal statuses of the spec's state machine. -/
def terminalStatus (s : String) : Bool := s == "succeeded" || s == "failed"

/-- The status enum claimed by the spec's data model. -/
def validStatus (s : String) : Bool :=
  s == "pending" || s == "processing" || s == "succeeded" || s == "failed"

/-! ## Registry lemmas -/

theorem registryGet_set_self (jobs : Registry) (key : String) (record : JobRecord) :
    registryGet (registrySet jobs key record) key = some record := by
  induction jobs with
  | nil => simp [registrySet, registryGet]
  | cons head rest ih =>
    obtain ⟨k, v⟩ := head
    by_cases h : k = key
    · subst h
      simp [registrySet, registryGet]
    · have hb : (k == key) = false := by simp [h]
      simp [registrySet, registryGet, hb, ih]

theorem registryGet_set_other (jobs : Registry) (key k : String) (record : JobRecord)
    (hne : key ≠ k) :
    registryGet (registrySet jobs key record) k = registryGet jobs k := by
  have hk : (key == k) = false := by simp [hne]
  induction jobs with
  | nil => simp [registrySet, registryGet, hk]
  | cons head rest ih =>
    obtain ⟨k1, v⟩ := head
    by_cases h : k1 = key
    · subst h
      simp [registrySet, registryGet, hk]
    · have hb : (k1 == key) = false := by simp [h]
      simp [registrySet, registryGet, hb, ih]

/-- The local job id returned by a successful generate call is always the
string form of this call's `Date.now()` value. -/
theorem generate_jobIdOf (jobs : Registry) (now : Nat) (req : GenerateRequest)
    (submit : ProviderInput → Except String Prediction) :
    (generate jobs now req submit).response.jobIdOf.all (fun j => j == toString now) = true := by
  unfold generate
  by_cases hc : (!truthy req.characterImageUrl || !truthy req.motionVideoUrl) = true
  · simp [hc, GenerateResponse.jobIdOf]
  · simp only [Bool.not_eq_true] at hc
    cases hs : submit (buildProviderInput (req.motionVideoUrl.getD "") req.prompt) with
    | error message => simp [hc, hs, GenerateResponse.jobIdOf]
    | ok prediction => simp [hc, hs, GenerateResponse.jobIdOf]

/-- A generate call never touches registry keys other than the string form
of its own `Date.now()` value. -/
theorem generate_preserves_other (jobs : Registry) (now : Nat) (req : GenerateRequest)
    (submit : ProviderInput → Except String Prediction) (k : String)
    (hne : toString now ≠ k) :
    registryGet (generate jobs now req submit).jobs k = registryGet jobs k := by
  unfold generate
  by_cases hc : (!truthy req.characterImageUrl || !truthy req.motionVideoUrl) = true
  · simp [hc]
  · simp only [Bool.not_eq_true] at hc
    cases hs : submit (buildProviderInput (req.motionVideoUrl.getD "") req.prompt) with
    | error message => simp [hc, hs]
    | ok prediction => simp [hc, hs, registryGet_set_other _ _ _ _ hne]

/-! ## Concrete fixtures for witnesses and counterexamples -/

/-- A job record as generate creates it, before any poll has run. -/
def procJob : JobRecord :=
  ⟨"p1", "processing", "http://host/img.png", "http://host/vid.mp4", none, 1, none⟩

/-- A job record whose status has already been reconciled to `succeeded`
with an output URL. -/
def doneJob : JobRecord :=
  ⟨"p1", "succeeded", "http://host/img.png", "http://host/vid.mp4", none, 1,
    some "http://provider/out.mp4"⟩

/-- A well-formed generate request with both URLs and a prompt. -/
def fullReq : GenerateRequest :=
  ⟨some "http://host/img.png", some "http://host/vid.mp4", some "dancing"⟩

/-! ## Claims -/

/-- C3: on a poll of an existing local job id whose provider fetch throws,
the registry is left completely unchanged and the handler answers with a
server error carrying the provider's error message. -/
theorem c3_poll_fetch_error_leaves_registry_unchanged (jobs : Registry) (jobId : String)
    (job : JobRecord) (message : String) (fetch : String → Except String Prediction)
    (hget : registryGet jobs jobId = some job)
    (herr : fetch job.predictionId = Except.error message) :
    pollStatus jobs jobId fetch = (jobs, StatusResponse.serverError message) := by
  simp [pollStatus, hget, herr]

/-- Witness for C3: a concrete poll whose fetch throws leaves the concrete
one-entry registry intact and surfaces the message. -/
theorem c3_poll_fetch_error_leaves_registry_unchanged_witness :
    pollStatus [("1", procJob)] "1" (fun _ => Except.error "network down")
      = ([("1", procJob)], StatusResponse.serverError "network down") :=
  c3_poll_fetch_error_leaves_registry_unchanged [("1", procJob)] "1" procJob "network down"
    (fun _ => Except.error "network down") rfl rfl

/-- C4: on a generate call whose provider submission throws, no job record
is inserted (the registry is exactly the one before the call) and the
handler answers with a server error carrying the error message. -/
theorem c4_generate_submit_error_no_record (jobs : Registry) (now : Nat)
    (req : GenerateRequest) (message : String)
    (submit : ProviderInput → Except String Prediction)
    (h1 : truthy req.characterImageUrl = true) (h2 : truthy req.motionVideoUrl = true)
    (herr : submit (buildProviderInput (req.motionVideoUrl.getD "") req.prompt)
      = Except.error message) :
    generate jobs now req submit
      = ⟨jobs, GenerateResponse.serverError message,
          some (buildProviderInput (req.motionVideoUrl.getD "") req.prompt)⟩ := by
  simp [generate, h1, h2, herr]

/-- Witness for C4: a concrete failing submission leaves the empty registry
empty and surfaces the message. -/
theorem c4_generate_submit_error_no_record_witness :
    generate [] 7 fullReq (fun _ => Except.error "quota exceeded")
      = ⟨[], GenerateResponse.serverError "quota exceeded",
          some (buildProviderInput "http://host/vid.mp4" (some "dancing"))⟩ :=
  c4_generate_submit_error_no_record [] 7 fullReq "quota exceeded"
    (fun _ => Except.error "quota exceeded") rfl rfl rfl

/-- C5: a generate call with a missing or empty character image URL or
motion video URL fails with the 400 body, performs no provider submission
(`submitted = none`) and leaves the registry exactly unchanged. -/
theorem c5_generate_missing_input (jobs : Registry) (now : Nat) (req : GenerateRequest)
    (submit : ProviderInput → Except String Prediction)
    (h : truthy req.characterImageUrl = false ∨ truthy req.motionVideoUrl = false) :
    generate jobs now req submit
      = ⟨jobs, GenerateResponse.badRequest "Character image and motion video are required",
          none⟩ := by
  unfold generate
  rcases h with h | h <;> simp [h]

/-- Witness for C5: a concrete call with the character image URL absent is
rejected without touching the registry or the provider. -/
theorem c5_generate_missing_input_witness :
    generate [("1", procJob)] 7 ⟨none, some "http://host/vid.mp4", none⟩
        (fun _ => Except.ok ⟨"p2", "starting", none, none⟩)
      = ⟨[("1", procJob)],
          GenerateResponse.badRequest "Character image and motion video are required", none⟩ :=
  c5_generate_missing_input [("1", procJob)] 7 ⟨none, some "http://host/vid.mp4", none⟩
    (fun _ => Except.ok ⟨"p2", "starting", none, none⟩) (Or.inl rfl)

/-- C8: polling twice in succession while the provider's reported state for
the prediction is unchanged (the same fetch behaviour both times) yields
exactly the same response, in particular the same status and videoUrl. -/
theorem c8_poll_idempotent_when_provider_unchanged (jobs : Registry) (jobId : String)
    (fetch : String → Except String Prediction) :
    (pollStatus (pollStatus jobs jobId fetch).1 jobId fetch).2
      = (pollStatus jobs jobId fetch).2 := by
  cases hget : registryGet jobs jobId with
  | none => simp [pollStatus, hget]
  | some job =>
    cases hf : fetch job.predictionId with
    | error message => simp [pollStatus, hget, hf]
    | ok prediction => simp [pollStatus, hget, hf, registryGet_set_self]

theorem truthy_isSome (x : Option String) (h : truthy x = true) : x.isSome = true := by
  cases x with
  | none => simp [truthy] at h
  | some s => rfl

/-- C1 counterexample: a record already reconciled to the terminal status
`succeeded` is sent back to the non-terminal status `processing` by a later
successful poll on which the provider reports `processing` — the handler
copies `prediction.status` into the record unconditionally. -/
theorem c1_terminal_regression_counterexample :
    terminalStatus doneJob.status = true
    ∧ (pollStatus [("1", doneJob)] "1"
          (fun _ => Except.ok ⟨"p1", "processing", none, none⟩)).2
        = StatusResponse.ok "1" "processing" none none
    ∧ registryGet (pollStatus [("1", doneJob)] "1"
          (fun _ => Except.ok ⟨"p1", "processing", none, none⟩)).1 "1"
        = some { doneJob with status := "processing" }
    ∧ terminalStatus "processing" = false :=
  ⟨rfl, rfl, rfl, rfl⟩

/-- C1 amended: a terminal status survives every later poll whose provider
fetch fails (the registry entry is untouched), and also every later
successful poll on which the provider itself reports a terminal status; the
registry never locally invents or locally retains a status against the
provider's report. -/
theorem c1_terminal_retained_amended (jobs : Registry) (jobId : String) (job : JobRecord)
    (fetch : String → Except String Prediction)
    (hget : registryGet jobs jobId = some job)
    (hterm : terminalStatus job.status = true)
    (hprov : ∀ p, fetch job.predictionId = Except.ok p → terminalStatus p.status = true) :
    (registryGet (pollStatus jobs jobId fetch).1 jobId).all
      (fun j => terminalStatus j.status) = true := by
  cases hf : fetch job.predictionId with
  | error message => simp [pollStatus, hget, hf, hterm]
  | ok prediction =>
    have hp := hprov prediction hf
    simp [pollStatus, hget, hf, registryGet_set_self, hp]

/-- Witness for the amended C1 at a concrete terminal record and a provider
that keeps reporting `succeeded`. -/
theorem c1_terminal_retained_amended_witness :
    (registryGet (pollStatus [("1", doneJob)] "1"
        (fun _ => Except.ok ⟨"p1", "succeeded", some "http://provider/out.mp4", none⟩)).1
        "1").all (fun j => terminalStatus j.status) = true :=
  c1_terminal_retained_amended [("1", doneJob)] "1" doneJob
    (fun _ => Except.ok ⟨"p1", "succeeded", some "http://provider/out.mp4", none⟩) rfl rfl
    (fun p hp => by injection hp with h; rw [← h]; decide)

/-- C2 counterexample: a first poll returns `succeeded` with a non-null
videoUrl, yet the next poll — on which the provider reports no output —
returns a null videoUrl, because the response always carries the freshly
fetched `prediction.output || null`, never the stored value. -/
theorem c2_videoUrl_null_again_counterexample :
    (pollStatus [("1", procJob)] "1"
        (fun _ => Except.ok ⟨"p1", "succeeded", some "http://provider/out.mp4", none⟩)).2
      = StatusResponse.ok "1" "succeeded" (some "http://provider/out.mp4") none
    ∧ (pollStatus
          (pollStatus [("1", procJob)] "1"
            (fun _ => Except.ok ⟨"p1", "succeeded", some "http://provider/out.mp4", none⟩)).1
          "1" (fun _ => Except.ok ⟨"p1", "succeeded", none, none⟩)).2
        = StatusResponse.ok "1" "succeeded" none none :=
  ⟨rfl, rfl⟩

/-- C2 amended: the stored videoUrl, once set, is never cleared by any
later successful poll, but the response's videoUrl is the freshly fetched
`prediction.output || null`, so it is null again whenever the provider
reports no (or an empty) output on that poll. -/
theorem c2_videoUrl_retained_in_registry_amended (jobs : Registry) (jobId : String)
    (job : JobRecord) (fetch : String → Except String Prediction) (p : Prediction)
    (hget : registryGet jobs jobId = some job)
    (hvid : job.videoUrl.isSome = true)
    (hfetch : fetch job.predictionId = Except.ok p) :
    (registryGet (pollStatus jobs jobId fetch).1 jobId).all
        (fun j => j.videoUrl.isSome) = true
    ∧ (pollStatus jobs jobId fetch).2
        = StatusResponse.ok jobId p.status (jsOrNull p.output) (jsOrNull p.error) := by
  constructor
  · by_cases ho : truthy p.output = true
    · simp [pollStatus, hget, hfetch, registryGet_set_self, ho, truthy_isSome p.output ho]
    · simp [pollStatus, hget, hfetch, registryGet_set_self, ho, hvid]
  · simp [pollStatus, hget, hfetch]

/-- Witness for the amended C2: on a record holding an output URL, a poll on
which the provider reports no output keeps the stored URL while answering
with a null videoUrl. -/
theorem c2_videoUrl_retained_in_registry_amended_witness :
    (registryGet (pollStatus [("1", doneJob)] "1"
        (fun _ => Except.ok ⟨"p1", "succeeded", none, none⟩)).1 "1").all
      (fun j => j.videoUrl.isSome) = true
    ∧ (pollStatus [("1", doneJob)] "1"
        (fun _ => Except.ok ⟨"p1", "succeeded", none, none⟩)).2
      = StatusResponse.ok "1" "succeeded" none none :=
  c2_videoUrl_retained_in_registry_amended [("1", doneJob)] "1" doneJob
    (fun _ => Except.ok ⟨"p1", "succeeded", none, none⟩)
    ⟨"p1", "succeeded", none, none⟩ rfl rfl rfl

/-- C6 counterexample: two successful generate calls in the same
`Date.now()` millisecond both return local job id `"5"`, and the second
`jobs.set` overwrites the first record: afterwards the registry holds a
single record, the second one. -/
theorem c6_same_millisecond_collision_counterexample :
    (generate [] 5 fullReq (fun _ => Except.ok ⟨"pA", "starting", none, none⟩)).response
      = GenerateResponse.ok "5" "pA" "processing"
    ∧ (generate (generate [] 5 fullReq (fun _ => Except.ok ⟨"pA", "starting", none, none⟩)).jobs
          5 fullReq (fun _ => Except.ok ⟨"pB", "starting", none, none⟩)).response
        = GenerateResponse.ok "5" "pB" "processing"
    ∧ (generate (generate [] 5 fullReq (fun _ => Except.ok ⟨"pA", "starting", none, none⟩)).jobs
          5 fullReq (fun _ => Except.ok ⟨"pB", "starting", none, none⟩)).jobs
        = [("5", ⟨"pB", "processing", "http://host/img.png", "http://host/vid.mp4",
            some "dancing", 5, none⟩)] :=
  ⟨rfl, rfl, rfl⟩

/-- C6 amended: two generate calls whose `Date.now()` values stringify
differently return distinct local job ids (each successful response carries
the string form of its own timestamp), and the second call leaves the first
call's registry entry untouched. -/
theorem c6_distinct_timestamps_amended (jobs : Registry) (now1 now2 : Nat)
    (req1 req2 : GenerateRequest)
    (submit1 submit2 : ProviderInput → Except String Prediction)
    (hne : toString now1 ≠ toString now2) :
    (generate jobs now1 req1 submit1).response.jobIdOf.all
        (fun j => j == toString now1) = true
    ∧ (generate (generate jobs now1 req1 submit1).jobs now2 req2 submit2).response.jobIdOf.all
        (fun j => j == toString now2) = true
    ∧ registryGet (generate (generate jobs now1 req1 submit1).jobs now2 req2 submit2).jobs
          (toString now1)
        = registryGet (generate jobs now1 req1 submit1).jobs (toString now1) :=
  ⟨generate_jobIdOf jobs now1 req1 submit1,
    generate_jobIdOf (generate jobs now1 req1 submit1).jobs now2 req2 submit2,
    generate_preserves_other (generate jobs now1 req1 submit1).jobs now2 req2 submit2
      (toString now1) (Ne.symm hne)⟩

/-- Witness for the amended C6 at timestamps 5 and 6. -/
theorem c6_distinct_timestamps_amended_witness :
    (generate [] 5 fullReq (fun _ => Except.ok ⟨"pA", "starting", none, none⟩)).response.jobIdOf.all
        (fun j => j == toString 5) = true
    ∧ (generate (generate [] 5 fullReq (fun _ => Except.ok ⟨"pA", "starting", none, none⟩)).jobs
          6 fullReq (fun _ => Except.ok ⟨"pB", "starting", none, none⟩)).response.jobIdOf.all
        (fun j => j == toString 6) = true
    ∧ registryGet (generate (generate [] 5 fullReq
            (fun _ => Except.ok ⟨"pA", "starting", none, none⟩)).jobs
          6 fullReq (fun _ => Except.ok ⟨"pB", "starting", none, none⟩)).jobs (toString 5)
        = registryGet (generate [] 5 fullReq
            (fun _ => Except.ok ⟨"pA", "starting", none, none⟩)).jobs (toString 5) :=
  c6_distinct_timestamps_amended [] 5 6 fullReq fullReq
    (fun _ => Except.ok ⟨"pA", "starting", none, none⟩)
    (fun _ => Except.ok ⟨"pB", "starting", none, none⟩) (by decide)

/-- C7 counterexample: a successful poll on which the provider reports the
status `canceled` stores `canceled` verbatim in the record — a value
outside the spec's enum {pending, processing, succeeded, failed}. -/
theorem c7_status_outside_enum_counterexample :
    registryGet (pollStatus [("1", procJob)] "1"
        (fun _ => Except.ok ⟨"p1", "canceled", none, none⟩)).1 "1"
      = some { procJob with status := "canceled" }
    ∧ validStatus "canceled" = false :=
  ⟨rfl, rfl⟩

/-- C7 amended: generate initializes the record's status to `processing`,
and every successful poll stores the provider-reported status string
verbatim — so the status stays inside the spec's enum only as long as the
provider reports values of that enum. -/
theorem c7_status_mirrors_provider_amended (jobs : Registry) (now : Nat)
    (req : GenerateRequest) (submit : ProviderInput → Except String Prediction)
    (fetch : String → Except String Prediction) (p1 p2 : Prediction)
    (h1 : truthy req.characterImageUrl = true) (h2 : truthy req.motionVideoUrl = true)
    (hsubmit : submit (buildProviderInput (req.motionVideoUrl.getD "") req.prompt)
      = Except.ok p1)
    (hfetch : fetch p1.id = Except.ok p2) :
    (registryGet (generate jobs now req submit).jobs (toString now)).all
        (fun j => j.status == "processing") = true
    ∧ (registryGet (pollStatus (generate jobs now req submit).jobs (toString now) fetch).1
          (toString now)).all (fun j => j.status == p2.status) = true := by
  have hjobs : (generate jobs now req submit).jobs
      = registrySet jobs (toString now)
          ⟨p1.id, "processing", req.characterImageUrl.getD "",
            req.motionVideoUrl.getD "", req.prompt, now, none⟩ := by
    simp [generate, h1, h2, hsubmit]
  constructor
  · rw [hjobs, registryGet_set_self]
    rfl
  · rw [hjobs]
    simp [pollStatus, registryGet_set_self, hfetch]

/-- Witness for the amended C7: a generate followed by a poll on which the
provider reports `canceled`; the record first reads `processing`, then
exactly `canceled`. -/
theorem c7_status_mirrors_provider_amended_witness :
    (registryGet (generate [] 5 fullReq
        (fun _ => Except.ok ⟨"pA", "starting", none, none⟩)).jobs (toString 5)).all
        (fun j => j.status == "processing") = true
    ∧ (registryGet (pollStatus (generate [] 5 fullReq
          (fun _ => Except.ok ⟨"pA", "starting", none, none⟩)).jobs (toString 5)
          (fun _ => Except.ok ⟨"pA", "canceled", none, none⟩)).1 (toString 5)).all
        (fun j => j.status == ((⟨"pA", "canceled", none, none⟩ : Prediction)).status) = true :=
  c7_status_mirrors_provider_amended [] 5 fullReq
    (fun _ => Except.ok ⟨"pA", "starting", none, none⟩)
    (fun _ => Except.ok ⟨"pA", "canceled", none, none⟩)
    ⟨"pA", "starting", none, none⟩ ⟨"pA", "canceled", none, none⟩ rfl rfl rfl rfl

/-- C9 counterexample: a concrete successful generate call submits an input
whose string parameters contain the motion video URL (as `path`) but not the
character image URL — the character image is never forwarded to the
provider. -/
theorem c9_character_image_not_forwarded_counterexample :
    (generate [] 1 fullReq (fun _ => Except.ok ⟨"pA", "starting", none, none⟩)).submitted
      = some (buildProviderInput "http://host/vid.mp4" (some "dancing"))
    ∧ (generate [] 1 fullReq (fun _ => Except.ok ⟨"pA", "starting", none, none⟩)).response
        = GenerateResponse.ok "1" "pA" "processing"
    ∧ "http://host/img.png"
        ∉ (buildProviderInput "http://host/vid.mp4" (some "dancing")).stringParams
    ∧ "http://host/vid.mp4"
        ∈ (buildProviderInput "http://host/vid.mp4" (some "dancing")).stringParams := by
  refine ⟨rfl, rfl, by decide, by decide⟩

/-- C9 amended: only the motion video URL (as the `path` input) and the
caller's prompt reach the provider; the submission is identical for any two
character image URLs, so the character image is stored locally but never
forwarded. -/
theorem c9_only_motion_video_forwarded_amended (jobs : Registry) (now : Nat)
    (cu1 cu2 mv p : Option String)
    (submit : ProviderInput → Except String Prediction)
    (h1 : truthy cu1 = true) (h2 : truthy cu2 = true) (hm : truthy mv = true) :
    (generate jobs now ⟨cu1, mv, p⟩ submit).submitted
        = (generate jobs now ⟨cu2, mv, p⟩ submit).submitted
    ∧ (generate jobs now ⟨cu1, mv, p⟩ submit).submitted
        = some (buildProviderInput (mv.getD "") p)
    ∧ (buildProviderInput (mv.getD "") p).path = mv.getD "" := by
  have hs : ∀ cu, truthy cu = true →
      (generate jobs now ⟨cu, mv, p⟩ submit).submitted
        = some (buildProviderInput (mv.getD "") p) := by
    intro cu hcu
    unfold generate
    cases hsub : submit (buildProviderInput (mv.getD "") p) with
    | error message => simp [hcu, hm, hsub]
    | ok prediction => simp [hcu, hm, hsub]
  exact ⟨(hs cu1 h1).trans (hs cu2 h2).symm, hs cu1 h1, rfl⟩

/-- Witness for the amended C9: two calls differing only in the character
image URL submit the identical provider input, whose `path` is the motion
video URL. -/
theorem c9_only_motion_video_forwarded_amended_witness :
    (generate [] 1 ⟨some "http://host/img.png", some "http://host/vid.mp4", none⟩
        (fun _ => Except.ok ⟨"pA", "starting", none, none⟩)).submitted
      = (generate [] 1 ⟨some "http://other/img2.png", some "http://host/vid.mp4", none⟩
          (fun _ => Except.ok ⟨"pA", "starting", none, none⟩)).submitted
    ∧ (generate [] 1 ⟨some "http://host/img.png", some "http://host/vid.mp4", none⟩
        (fun _ => Except.ok ⟨"pA", "starting", none, none⟩)).submitted
      = some (buildProviderInput ((some "http://host/vid.mp4").getD "") none)
    ∧ (buildProviderInput ((some "http://host/vid.mp4").getD "") none).path
      = (some "http://host/vid.mp4").getD "" :=
  c9_only_motion_video_forwarded_amended [] 1 (some "http://host/img.png")
    (some "http://other/img2.png") (some "http://host/vid.mp4") none
    (fun _ => Except.ok ⟨"pA", "starting", none, none⟩) rfl rfl rfl

/-- C10: when the caller's prompt is absent or empty, the provider
submission carries the default prompt string, while the record inserted
into the registry keeps the caller's original prompt value. -/
theorem c10_default_prompt_submitted_original_stored (jobs : Registry) (now : Nat)
    (req : GenerateRequest) (submit : ProviderInput → Except String Prediction)
    (p : Prediction)
    (h1 : truthy req.characterImageUrl = true) (h2 : truthy req.motionVideoUrl = true)
    (hp : truthy req.prompt = false)
    (hok : submit (buildProviderInput (req.motionVideoUrl.getD "") req.prompt)
      = Except.ok p) :
    (generate jobs now req submit).submitted.map ProviderInput.prompt = some defaultPrompt
    ∧ (registryGet (generate jobs now req submit).jobs (toString now)).map JobRecord.prompt
        = some req.prompt := by
  have hjsOr : jsOr req.prompt defaultPrompt = defaultPrompt := by
    cases hq : req.prompt with
    | none => rfl
    | some s =>
      rw [hq] at hp
      simp [truthy] at hp
      simp [jsOr, hp]
  constructor
  · have hsub : (generate jobs now req submit).submitted
        = some (buildProviderInput (req.motionVideoUrl.getD "") req.prompt) := by
      simp [generate, h1, h2, hok]
    rw [hsub]
    simp [buildProviderInput, hjsOr]
  · simp [generate, h1, h2, hok, registryGet_set_self]

/-- Witness for C10: a call with an absent prompt submits the default
prompt and stores an absent prompt in the record. -/
theorem c10_default_prompt_submitted_original_stored_witness :
    (generate [] 9 ⟨some "http://host/img.png", some "http://host/vid.mp4", none⟩
        (fun _ => Except.ok ⟨"pA", "starting", none, none⟩)).submitted.map
        ProviderInput.prompt = some defaultPrompt
    ∧ (registryGet (generate [] 9
          ⟨some "http://host/img.png", some "http://host/vid.mp4", none⟩
          (fun _ => Except.ok ⟨"pA", "starting", none, none⟩)).jobs (toString 9)).map
        JobRecord.prompt = some none :=
  c10_default_prompt_submitted_original_stored [] 9
    ⟨some "http://host/img.png", some "http://host/vid.mp4", none⟩
    (fun _ => Except.ok ⟨"pA", "starting", none, none⟩)
    ⟨"pA", "starting", none, none⟩ rfl rfl rfl rfl

end MotionControl
